import Mathlib

/-!
Verification of the binary-resolution and self-update subsystem of the
wc-language-server Zed extension (src/packages/zed/src/lib.rs).

The Rust code is shallowly embedded: paths are strings joined with "/",
the filesystem is an association list from path to contents, and each
fallible external call (release-feed query, directory creation, download,
marker write) is an explicit outcome recorded in the environment.  The
functions below mirror the Rust control flow line by line; side effects
(files written, downloads performed) are returned explicitly.
-/

namespace WcZed

/-- Constant GITHUB_REPO from lib.rs line 5. -/
def GITHUB_REPO : String := "wc-toolkit/wc-language-server"

/-- Constant JS_ASSET_NAME from lib.rs line 6. -/
def JS_ASSET_NAME : String := "wc-language-server.js"

/-- Constant SERVER_VERSION_MARKER from lib.rs line 7. -/
def SERVER_VERSION_MARKER : String := "server/bin/.release-version"

/-- One downloadable release asset (zed_extension_api GithubReleaseAsset):
a name and a download URL. -/
structure Asset where
  name : String
  download_url : String
deriving DecidableEq, Repr

/-- A fetched release (zed_extension_api GithubRelease): version tag and
asset list. -/
structure Release where
  version : String
  assets : List Asset
deriving DecidableEq, Repr

/-- The filesystem, as an association list from path to file contents.
Lookup returns the first binding, so writing prepends. -/
structure FS where
  files : List (String × String)
deriving DecidableEq, Repr

/-- Whether a path exists on disk (PathBuf::exists for the files the
program ever tests). -/
def FS.pathExists (fs : FS) (p : String) : Bool :=
  (fs.files.lookup p).isSome

/-- fs::read_to_string: some contents when the file exists. -/
def FS.read (fs : FS) (p : String) : Option String :=
  fs.files.lookup p

/-- fs::write: overwrite (shadow) any previous binding of the path. -/
def FS.write (fs : FS) (p v : String) : FS :=
  ⟨(p, v) :: fs.files⟩

/-- str::trim (Rust): strip whitespace from both ends of the marker file
contents.  Implemented structurally over the character list so it
evaluates by kernel reduction. -/
def strTrim (s : String) : String :=
  ⟨((s.data.dropWhile Char.isWhitespace).reverse.dropWhile Char.isWhitespace).reverse⟩

/-- PathBuf::file_name: the last separator-delimited segment, ignoring
trailing separators; an empty result or the special segments "." and
".." yield none, as in Rust. -/
def pathFileName (p : String) : Option String :=
  let rev := p.data.reverse.dropWhile (fun c => c == '/')
  let name : String := ⟨(rev.takeWhile (fun c => c != '/')).reverse⟩
  if name = "" ∨ name = "." ∨ name = ".." then none else some name

/-- PathBuf::extension: the portion of the file name after the last dot;
none when there is no dot or the only dot is the leading character of
the file name. -/
def pathExtension (p : String) : Option String :=
  match pathFileName p with
  | none => none
  | some name =>
    if name.data.contains '.' then
      let extRev := name.data.reverse.takeWhile (fun c => c != '.')
      if extRev.length + 1 = name.data.length then none
      else some ⟨extRev.reverse⟩
    else none

/-- PathBuf::join for the slash-separated string model. -/
def pathJoin (a b : String) : String := a ++ "/" ++ b

/-- PathBuf::parent: drop the last separator-delimited segment.  The
program only calls this on multi-segment paths such as
root/server/bin/asset, where it agrees with Rust; a separator-free path
yields none. -/
def pathParent (p : String) : Option String :=
  if p.data.contains '/' then
    some ⟨((p.data.reverse.dropWhile (fun c => c != '/')).drop 1).reverse⟩
  else none

/-- Decidable equality for call outcomes, so that concrete runs of the
model can be checked by evaluation. -/
instance {ε α : Type} [DecidableEq ε] [DecidableEq α] : DecidableEq (Except ε α) := fun a b =>
  match a, b with
  | .error e₁, .error e₂ =>
    if h : e₁ = e₂ then .isTrue (by rw [h]) else .isFalse (by intro hc; cases hc; exact h rfl)
  | .ok v₁, .ok v₂ =>
    if h : v₁ = v₂ then .isTrue (by rw [h]) else .isFalse (by intro hc; cases hc; exact h rfl)
  | .error _, .ok _ => .isFalse (by intro hc; cases hc)
  | .ok _, .error _ => .isFalse (by intro hc; cases hc)

/-- The environment of one resolution call: the override variable, the
platform identifiers, the filesystem, and the outcome of each fallible
external call the code can make (at most one release query, one
directory creation, one download and one marker write per call). -/
structure Env where
  customServerEnv : Option String
  os : String
  arch : String
  fs : FS
  releaseResult : Except String Release
  mkdirResult : Except String Unit
  downloadResult : Except String Unit
  writeResult : Except String Unit
deriving DecidableEq, Repr

/-- Result of a resolution call: the returned value (path and
requires-node flag, or the error string), the filesystem after the call,
and the list of download_file invocations (url, target path). -/
structure StepResult where
  result : Except String (String × Bool)
  fs : FS
  downloads : List (String × String)
deriving DecidableEq, Repr

/-- server_asset_for_platform (lib.rs lines 192-211): map the (OS, arch)
identifiers to the preferred asset name and its requires-node flag, with
the universal JS asset as fallback for unrecognized platforms. -/
def server_asset_for_platform (os arch : String) : String × Bool :=
  if os = "windows" then ("wc-language-server-windows-x64.exe", false)
  else if os = "macos" then
    if arch = "aarch64" then ("wc-language-server-macos-arm64", false)
    else ("wc-language-server-macos-x64", false)
  else if os = "linux" then
    if arch = "aarch64" then ("wc-language-server-linux-arm64", false)
    else ("wc-language-server-linux-x64", false)
  else (JS_ASSET_NAME, true)

/-- is_node_script (lib.rs lines 213-218): the file extension is exactly
js, cjs or mjs. -/
def is_node_script (p : String) : Bool :=
  ((pathExtension p).map
    (fun ext => ext == "js" || ext == "cjs" || ext == "mjs")).getD false

/-- The download-and-record portion of ensure_latest_language_server
(lib.rs lines 167-189): download the asset to the target path,
best-effort executable bit (no effect in this model), then record the
release version in the marker file.  Each fallible step consults the
environment outcome; the download invocation is recorded even when it
fails. -/
def install_download (env : Env) (asset : Asset)
    (target_path version_marker version : String) (requires_node : Bool) : StepResult :=
  match env.downloadResult with
  | .error err =>
    { result := .error err, fs := env.fs
      downloads := [(asset.download_url, target_path)] }
  | .ok _ =>
    let fs1 := env.fs.write target_path asset.download_url
    match env.writeResult with
    | .error err =>
      { result := .error ("failed to record downloaded language server version at "
          ++ version_marker ++ ": " ++ err)
        fs := fs1
        downloads := [(asset.download_url, target_path)] }
    | .ok _ =>
      { result := .ok (target_path, requires_node)
        fs := fs1.write version_marker version
        downloads := [(asset.download_url, target_path)] }

/-- The directory-creation guard in front of the download (lib.rs lines
161-165): when the target has a parent, failure to create it aborts the
install before any download. -/
def install (env : Env) (asset : Asset) (target_path version_marker version : String)
    (requires_node : Bool) : StepResult :=
  match pathParent target_path with
  | some parent =>
    match env.mkdirResult with
    | .error err =>
      { result := .error ("failed to create language server directory "
          ++ parent ++ ": " ++ err)
        fs := env.fs, downloads := [] }
    | .ok _ => install_download env asset target_path version_marker version requires_node
  | none => install_download env asset target_path version_marker version requires_node

/-- ensure_latest_language_server (lib.rs lines 46-190): query the
release feed (falling back to an existing binary, else failing), take
the cached binary or cached JS bundle when the version marker matches,
otherwise choose the preferred asset, then the JS asset, then an
existing file, then fail; chosen assets are installed. -/
def ensure_latest_language_server (env : Env)
    (script version_marker preferred_asset : String)
    (preferred_requires_node : Bool) : StepResult :=
  match env.releaseResult with
  | .error err =>
    if env.fs.pathExists script then
      { result := .ok (script, preferred_requires_node), fs := env.fs, downloads := [] }
    else
      { result := .error ("unable to resolve language server release (" ++ err
          ++ "); no existing binary found at " ++ script)
        fs := env.fs, downloads := [] }
  | .ok release =>
    let preferred_release_asset := release.assets.find? (fun a => a.name == preferred_asset)
    let js_release_asset := release.assets.find? (fun a => a.name == JS_ASSET_NAME)
    let js_path := pathJoin ((pathParent script).getD script) JS_ASSET_NAME
    let current_version := (env.fs.read version_marker).map (fun contents => strTrim contents)
    let up_to_date := env.fs.pathExists script &&
      (current_version.map (fun version => version == release.version)).getD false
    if up_to_date then
      { result := .ok (script, preferred_requires_node), fs := env.fs, downloads := [] }
    else if env.fs.pathExists js_path &&
        (current_version.map (fun version => version == release.version)).getD false then
      { result := .ok (js_path, true), fs := env.fs, downloads := [] }
    else
      match preferred_release_asset with
      | some asset => install env asset script version_marker release.version
          preferred_requires_node
      | none =>
        if env.fs.pathExists script then
          { result := .ok (script, preferred_requires_node), fs := env.fs, downloads := [] }
        else
          match js_release_asset with
          | some asset => install env asset js_path version_marker release.version true
          | none =>
            if env.fs.pathExists js_path then
              { result := .ok (js_path, true), fs := env.fs, downloads := [] }
            else
              { result := .error ("latest release " ++ release.version
                  ++ " is missing required assets " ++ preferred_asset ++ " or "
                  ++ JS_ASSET_NAME ++ " and no cached server exists at " ++ script)
                fs := env.fs, downloads := [] }

/-- resolve_server_script (lib.rs lines 13-44): an operator override is
returned verbatim with its node flag; otherwise the platform asset is
chosen and ensure_latest_language_server runs on the derived paths.  The
extension root (current_dir after canonicalization) is a parameter. -/
def resolve_server_script (env : Env) (extension_root : String) : StepResult :=
  match env.customServerEnv with
  | some custom =>
    { result := .ok (custom, is_node_script custom), fs := env.fs, downloads := [] }
  | none =>
    let pr := server_asset_for_platform env.os env.arch
    let script := pathJoin (pathJoin extension_root "server/bin") pr.1
    let version_marker := pathJoin extension_root SERVER_VERSION_MARKER
    ensure_latest_language_server env script version_marker pr.1 pr.2

/-- A JSON-like settings value (zed::serde_json::Value). -/
inductive Json where
  | null : Json
  | bool : Bool → Json
  | num : Int → Json
  | str : String → Json
  | arr : List Json → Json
  | obj : List (String × Json) → Json

/-- The part of zed LspSettings touched by the extension: two optional
payloads read from the host settings. -/
structure LspSettings where
  initialization_options : Option Json
  settings : Option Json

/-- language_server_initialization_options (lib.rs lines 250-260):
LspSettings::for_worktree(..).ok().and_then(..initialization_options). -/
def language_server_initialization_options
    (forWorktree : Except Unit LspSettings) : Except String (Option Json) :=
  .ok (forWorktree.toOption.bind (fun lsp => lsp.initialization_options))

/-- language_server_workspace_configuration (lib.rs lines 262-273):
LspSettings::for_worktree(..).ok().and_then(..settings).unwrap_or_default,
wrapped in Some. -/
def language_server_workspace_configuration
    (forWorktree : Except Unit LspSettings) : Except String (Option Json) :=
  .ok (some ((forWorktree.toOption.bind (fun lsp => lsp.settings)).getD Json.null))

/-! Concrete environments used to instantiate the theorems below. -/

/-- A call environment whose feed reports the version already recorded in
the marker file, with the native binary on disk. -/
def envCachedNative : Env :=
  { customServerEnv := none
    os := "linux"
    arch := "x86_64"
    fs := ⟨[("root/server/bin/wc-language-server-linux-x64", "binary"),
            ("root/server/bin/.release-version", " 2.3.0\n")]⟩
    releaseResult := .ok ⟨"2.3.0", [⟨"wc-language-server-linux-x64", "https://dl/native"⟩]⟩
    mkdirResult := .ok ()
    downloadResult := .ok ()
    writeResult := .ok () }

/-- A call environment whose feed query fails while the native binary is
on disk. -/
def envFeedDownExisting : Env :=
  { customServerEnv := none
    os := "linux"
    arch := "x86_64"
    fs := ⟨[("root/server/bin/wc-language-server-linux-x64", "binary")]⟩
    releaseResult := .error "rate limited"
    mkdirResult := .ok ()
    downloadResult := .ok ()
    writeResult := .ok () }

/-- A call environment whose feed query fails with nothing on disk. -/
def envFeedDownEmpty : Env :=
  { customServerEnv := none
    os := "linux"
    arch := "x86_64"
    fs := ⟨[]⟩
    releaseResult := .error "rate limited"
    mkdirResult := .ok ()
    downloadResult := .ok ()
    writeResult := .ok () }

/-- A call environment where only the universal JS bundle is cached and
the marker matches the feed version. -/
def envCachedJsBundle : Env :=
  { customServerEnv := none
    os := "linux"
    arch := "x86_64"
    fs := ⟨[("root/server/bin/wc-language-server.js", "bundle"),
            ("root/server/bin/.release-version", "2.3.0")]⟩
    releaseResult := .ok ⟨"2.3.0", [⟨"wc-language-server-linux-x64", "https://dl/native"⟩]⟩
    mkdirResult := .ok ()
    downloadResult := .ok ()
    writeResult := .ok () }

/-- A call environment where an install is required and the download
step fails. -/
def envDownloadFails : Env :=
  { customServerEnv := none
    os := "linux"
    arch := "x86_64"
    fs := ⟨[]⟩
    releaseResult := .ok ⟨"2.4.0", [⟨"wc-language-server-linux-x64", "https://dl/native"⟩]⟩
    mkdirResult := .ok ()
    downloadResult := .error "network reset"
    writeResult := .ok () }

/-- A call environment whose feed release carries neither the native
asset nor the JS asset, with a stale native binary on disk. -/
def envNoUsableAssets : Env :=
  { customServerEnv := none
    os := "linux"
    arch := "x86_64"
    fs := ⟨[("root/server/bin/wc-language-server-linux-x64", "binary")]⟩
    releaseResult := .ok ⟨"3.0.0", [⟨"checksums.txt", "https://dl/sums"⟩]⟩
    mkdirResult := .ok ()
    downloadResult := .ok ()
    writeResult := .ok () }

/-- A call environment where a stale native binary is still on disk next
to a cached JS bundle whose install wrote the marker: the marker matches
the feed version while the binary predates it. -/
def envStaleBinaryCachedJs : Env :=
  { customServerEnv := none
    os := "linux"
    arch := "x86_64"
    fs := ⟨[("root/server/bin/wc-language-server-linux-x64", "stale binary"),
            ("root/server/bin/wc-language-server.js", "bundle"),
            ("root/server/bin/.release-version", "2.3.0")]⟩
    releaseResult := .ok ⟨"2.3.0", [⟨"wc-language-server.js", "https://dl/js"⟩]⟩
    mkdirResult := .ok ()
    downloadResult := .ok ()
    writeResult := .ok () }

/-- A call environment with the operator override set to a path that does
not exist on the (empty) filesystem. -/
def envOverrideMissing : Env :=
  { customServerEnv := some "/opt/absent/wc-server"
    os := "linux"
    arch := "x86_64"
    fs := ⟨[]⟩
    releaseResult := .error "offline"
    mkdirResult := .ok ()
    downloadResult := .ok ()
    writeResult := .ok () }

/-- A call environment with the operator override set to a Node script
path. -/
def envOverrideNodeScript : Env :=
  { customServerEnv := some "tools/wc-server.cjs"
    os := "linux"
    arch := "x86_64"
    fs := ⟨[]⟩
    releaseResult := .error "offline"
    mkdirResult := .ok ()
    downloadResult := .ok ()
    writeResult := .ok () }

/-! Helper lemmas about the install step, shared by several claims. -/

/-- When the download outcome is a failure, the install step leaves the
filesystem untouched, and an attempted download means the whole call
returns an error. -/
theorem install_download_error_frame (env : Env) (asset : Asset)
    (target version_marker version : String) (rn : Bool) (e : String)
    (hdl : env.downloadResult = .error e) :
    (install env asset target version_marker version rn).fs = env.fs ∧
    ((install env asset target version_marker version rn).downloads ≠ [] →
      ∃ msg, (install env asset target version_marker version rn).result = .error msg) := by
  unfold install install_download
  rw [hdl]
  split
  · split
    · exact ⟨rfl, fun h => (h rfl).elim⟩
    · exact ⟨rfl, fun _ => ⟨e, rfl⟩⟩
  · exact ⟨rfl, fun _ => ⟨e, rfl⟩⟩

/-- Every download the install step performs targets exactly the chosen
asset and target path. -/
theorem install_downloads_shape (env : Env) (a : Asset) (t m v : String) (rn : Bool) :
    (install env a t m v rn).downloads = [] ∨
    (install env a t m v rn).downloads = [(a.download_url, t)] := by
  simp only [install, install_download]
  split
  · split
    · exact .inl rfl
    · split
      · exact .inr rfl
      · split
        · exact .inr rfl
        · exact .inr rfl
  · split
    · exact .inr rfl
    · split
      · exact .inr rfl
      · exact .inr rfl

/-- Claim C1: with no operator override, when the platform-preferred
binary exists at the expected path and the version marker's trimmed
contents equal the feed's version tag, ensure_latest_language_server
performs no download, writes nothing, and returns the pre-existing
binary's path with the platform-determined execution mode. -/
theorem cached_binary_no_download (env : Env)
    (script version_marker preferred_asset : String) (preferred_requires_node : Bool)
    (r : Release) (s : String)
    (hrel : env.releaseResult = .ok r)
    (hex : env.fs.pathExists script = true)
    (hread : env.fs.read version_marker = some s)
    (htrim : strTrim s = r.version) :
    ensure_latest_language_server env script version_marker preferred_asset
        preferred_requires_node =
      { result := .ok (script, preferred_requires_node), fs := env.fs, downloads := [] } := by
  unfold ensure_latest_language_server
  rw [hrel]
  simp [hread, hex, htrim]

/-- Witness for C1: a concrete run where marker and feed both say 2.3.0
and the native binary is cached. -/
theorem cached_binary_no_download_witness :
    ensure_latest_language_server envCachedNative
        "root/server/bin/wc-language-server-linux-x64" "root/server/bin/.release-version"
        "wc-language-server-linux-x64" false =
      { result := .ok ("root/server/bin/wc-language-server-linux-x64", false)
        fs := envCachedNative.fs, downloads := [] } :=
  cached_binary_no_download envCachedNative
    "root/server/bin/wc-language-server-linux-x64" "root/server/bin/.release-version"
    "wc-language-server-linux-x64" false
    ⟨"2.3.0", [⟨"wc-language-server-linux-x64", "https://dl/native"⟩]⟩ " 2.3.0\n"
    rfl rfl rfl rfl

/-- Claim C2: when the download step fails, ensure_latest_language_server
leaves the filesystem (in particular the version marker) exactly as it
was, and any call that attempted a download returns an error. -/
theorem download_failure_preserves_marker (env : Env)
    (script version_marker preferred_asset : String) (prn : Bool) (e : String)
    (hdl : env.downloadResult = .error e) :
    (ensure_latest_language_server env script version_marker preferred_asset prn).fs = env.fs ∧
    ((ensure_latest_language_server env script version_marker preferred_asset prn).downloads
        ≠ [] →
      ∃ msg, (ensure_latest_language_server env script version_marker preferred_asset
          prn).result = .error msg) := by
  simp only [ensure_latest_language_server]
  split
  · split
    · exact ⟨rfl, fun h => (h rfl).elim⟩
    · exact ⟨rfl, fun h => (h rfl).elim⟩
  · split
    · exact ⟨rfl, fun h => (h rfl).elim⟩
    · split
      · exact ⟨rfl, fun h => (h rfl).elim⟩
      · split
        · exact install_download_error_frame env _ _ _ _ _ e hdl
        · split
          · exact ⟨rfl, fun h => (h rfl).elim⟩
          · split
            · exact install_download_error_frame env _ _ _ _ _ e hdl
            · split
              · exact ⟨rfl, fun h => (h rfl).elim⟩
              · exact ⟨rfl, fun h => (h rfl).elim⟩

/-- Witness for C2: a concrete run that must install (empty disk, fresh
release) and whose download fails. -/
theorem download_failure_preserves_marker_witness :
    (ensure_latest_language_server envDownloadFails
        "bin/wc-language-server-linux-x64" "bin/.release-version"
        "wc-language-server-linux-x64" false).fs = envDownloadFails.fs ∧
    ((ensure_latest_language_server envDownloadFails
        "bin/wc-language-server-linux-x64" "bin/.release-version"
        "wc-language-server-linux-x64" false).downloads ≠ [] →
      ∃ msg, (ensure_latest_language_server envDownloadFails
          "bin/wc-language-server-linux-x64" "bin/.release-version"
          "wc-language-server-linux-x64" false).result = .error msg) :=
  download_failure_preserves_marker envDownloadFails
    "bin/wc-language-server-linux-x64" "bin/.release-version"
    "wc-language-server-linux-x64" false "network reset" rfl

/-- Claim C3: when the release-feed query fails but the preferred binary
exists on disk, resolution succeeds with that binary and the
platform-determined execution mode, touching nothing. -/
theorem feed_failure_uses_existing (env : Env)
    (script version_marker preferred_asset : String) (preferred_requires_node : Bool)
    (err : String)
    (hrel : env.releaseResult = .error err)
    (hex : env.fs.pathExists script = true) :
    ensure_latest_language_server env script version_marker preferred_asset
        preferred_requires_node =
      { result := .ok (script, preferred_requires_node), fs := env.fs, downloads := [] } := by
  unfold ensure_latest_language_server
  rw [hrel]
  simp [hex]

/-- Witness for C3: a concrete feed failure with a cached binary. -/
theorem feed_failure_uses_existing_witness :
    ensure_latest_language_server envFeedDownExisting
        "root/server/bin/wc-language-server-linux-x64" "root/server/bin/.release-version"
        "wc-language-server-linux-x64" false =
      { result := .ok ("root/server/bin/wc-language-server-linux-x64", false)
        fs := envFeedDownExisting.fs, downloads := [] } :=
  feed_failure_uses_existing envFeedDownExisting
    "root/server/bin/wc-language-server-linux-x64" "root/server/bin/.release-version"
    "wc-language-server-linux-x64" false "rate limited" rfl rfl

/-- Claim C4: when the release-feed query fails and no binary exists at
the expected path, resolution returns an error whose message contains
the expected binary path, and nothing is touched. -/
theorem feed_failure_no_binary_fails (env : Env)
    (script version_marker preferred_asset : String) (preferred_requires_node : Bool)
    (err : String)
    (hrel : env.releaseResult = .error err)
    (hex : env.fs.pathExists script = false) :
    (∃ a, (ensure_latest_language_server env script version_marker preferred_asset
        preferred_requires_node).result = .error (a ++ script)) ∧
    (ensure_latest_language_server env script version_marker preferred_asset
        preferred_requires_node).fs = env.fs ∧
    (ensure_latest_language_server env script version_marker preferred_asset
        preferred_requires_node).downloads = [] := by
  unfold ensure_latest_language_server
  rw [hrel]
  simp [hex]
  exact ⟨("unable to resolve language server release (" ++ err)
    ++ "); no existing binary found at ", rfl⟩

/-- Witness for C4: a concrete feed failure over an empty filesystem. -/
theorem feed_failure_no_binary_fails_witness :
    (∃ a, (ensure_latest_language_server envFeedDownEmpty
        "root/server/bin/wc-language-server-linux-x64" "root/server/bin/.release-version"
        "wc-language-server-linux-x64" false).result =
          .error (a ++ "root/server/bin/wc-language-server-linux-x64")) ∧
    (ensure_latest_language_server envFeedDownEmpty
        "root/server/bin/wc-language-server-linux-x64" "root/server/bin/.release-version"
        "wc-language-server-linux-x64" false).fs = envFeedDownEmpty.fs ∧
    (ensure_latest_language_server envFeedDownEmpty
        "root/server/bin/wc-language-server-linux-x64" "root/server/bin/.release-version"
        "wc-language-server-linux-x64" false).downloads = [] :=
  feed_failure_no_binary_fails envFeedDownEmpty
    "root/server/bin/wc-language-server-linux-x64" "root/server/bin/.release-version"
    "wc-language-server-linux-x64" false "rate limited" rfl rfl

/-- Claim C5: on a fetched release, any install targets the
platform-native asset whenever it is present in the asset list; the JS
asset is installed only when the native asset is absent; and when
neither asset is in the release, resolution returns an existing on-disk
file when one exists and otherwise fails with an error naming both
missing asset names. -/
theorem native_asset_preferred (env : Env)
    (script version_marker preferred_asset : String) (prn : Bool) (r : Release)
    (hrel : env.releaseResult = .ok r) :
    (∀ a, r.assets.find? (fun x => x.name == preferred_asset) = some a →
      (ensure_latest_language_server env script version_marker preferred_asset prn).downloads
          = [] ∨
      (ensure_latest_language_server env script version_marker preferred_asset prn).downloads
          = [(a.download_url, script)]) ∧
    (r.assets.find? (fun x => x.name == preferred_asset) = none →
      ∀ a, r.assets.find? (fun x => x.name == JS_ASSET_NAME) = some a →
        (ensure_latest_language_server env script version_marker preferred_asset prn).downloads
            = [] ∨
        (ensure_latest_language_server env script version_marker preferred_asset prn).downloads
            = [(a.download_url, pathJoin ((pathParent script).getD script) JS_ASSET_NAME)]) ∧
    (r.assets.find? (fun x => x.name == preferred_asset) = none →
      r.assets.find? (fun x => x.name == JS_ASSET_NAME) = none →
      (ensure_latest_language_server env script version_marker preferred_asset prn).downloads
          = [] ∧
      (env.fs.pathExists script = true →
        (ensure_latest_language_server env script version_marker preferred_asset prn).result =
          .ok (script, prn)) ∧
      (env.fs.pathExists script = false →
        env.fs.pathExists (pathJoin ((pathParent script).getD script) JS_ASSET_NAME) = true →
        (ensure_latest_language_server env script version_marker preferred_asset prn).result =
          .ok (pathJoin ((pathParent script).getD script) JS_ASSET_NAME, true)) ∧
      (env.fs.pathExists script = false →
        env.fs.pathExists (pathJoin ((pathParent script).getD script) JS_ASSET_NAME) = false →
        (ensure_latest_language_server env script version_marker preferred_asset prn).result =
          .error ("latest release " ++ r.version ++ " is missing required assets "
            ++ preferred_asset ++ " or " ++ JS_ASSET_NAME
            ++ " and no cached server exists at " ++ script))) := by
  refine ⟨?_, ?_, ?_⟩
  · intro a ha
    simp only [ensure_latest_language_server, hrel, ha]
    split
    · exact .inl rfl
    · split
      · exact .inl rfl
      · exact install_downloads_shape env a script version_marker r.version prn
  · intro hpref a hjs
    simp only [ensure_latest_language_server, hrel, hpref, hjs]
    split
    · exact .inl rfl
    · split
      · exact .inl rfl
      · split
        · exact .inl rfl
        · exact install_downloads_shape env a _ version_marker r.version true
  · intro hpref hjs
    simp only [ensure_latest_language_server, hrel, hpref, hjs]
    refine ⟨?_, ?_, ?_, ?_⟩
    · split
      · rfl
      · split
        · rfl
        · split
          · rfl
          · split
            · rfl
            · rfl
    · intro h1
      split
      all_goals try split
      all_goals simp_all
    · intro h1 h2
      split
      all_goals try split
      all_goals try split
      all_goals simp_all
    · intro h1 h2
      split
      all_goals try split
      all_goals try split
      all_goals try split
      all_goals simp_all

/-- The release used by the C5 witness: neither the native asset nor
the JS asset is in its asset list. -/
def releaseNoAssets : Release := ⟨"3.0.0", [⟨"checksums.txt", "https://dl/sums"⟩]⟩

/-- Witness for C5: a concrete release carrying neither usable asset,
with a stale native binary on disk that keeps being used. -/
theorem native_asset_preferred_witness :
    (∀ a, releaseNoAssets.assets.find?
        (fun x => x.name == "wc-language-server-linux-x64") = some a →
      (ensure_latest_language_server envNoUsableAssets
          "root/server/bin/wc-language-server-linux-x64" "root/server/bin/.release-version"
          "wc-language-server-linux-x64" false).downloads = [] ∨
      (ensure_latest_language_server envNoUsableAssets
          "root/server/bin/wc-language-server-linux-x64" "root/server/bin/.release-version"
          "wc-language-server-linux-x64" false).downloads =
        [(a.download_url, "root/server/bin/wc-language-server-linux-x64")]) ∧
    (releaseNoAssets.assets.find?
        (fun x => x.name == "wc-language-server-linux-x64") = none →
      ∀ a, releaseNoAssets.assets.find? (fun x => x.name == JS_ASSET_NAME) = some a →
        (ensure_latest_language_server envNoUsableAssets
            "root/server/bin/wc-language-server-linux-x64" "root/server/bin/.release-version"
            "wc-language-server-linux-x64" false).downloads = [] ∨
        (ensure_latest_language_server envNoUsableAssets
            "root/server/bin/wc-language-server-linux-x64" "root/server/bin/.release-version"
            "wc-language-server-linux-x64" false).downloads =
          [(a.download_url,
            pathJoin ((pathParent "root/server/bin/wc-language-server-linux-x64").getD
              "root/server/bin/wc-language-server-linux-x64") JS_ASSET_NAME)]) ∧
    (releaseNoAssets.assets.find?
        (fun x => x.name == "wc-language-server-linux-x64") = none →
      releaseNoAssets.assets.find? (fun x => x.name == JS_ASSET_NAME) = none →
      (ensure_latest_language_server envNoUsableAssets
          "root/server/bin/wc-language-server-linux-x64" "root/server/bin/.release-version"
          "wc-language-server-linux-x64" false).downloads = [] ∧
      (envNoUsableAssets.fs.pathExists "root/server/bin/wc-language-server-linux-x64" = true →
        (ensure_latest_language_server envNoUsableAssets
            "root/server/bin/wc-language-server-linux-x64" "root/server/bin/.release-version"
            "wc-language-server-linux-x64" false).result =
          .ok ("root/server/bin/wc-language-server-linux-x64", false)) ∧
      (envNoUsableAssets.fs.pathExists "root/server/bin/wc-language-server-linux-x64" = false →
        envNoUsableAssets.fs.pathExists
          (pathJoin ((pathParent "root/server/bin/wc-language-server-linux-x64").getD
            "root/server/bin/wc-language-server-linux-x64") JS_ASSET_NAME) = true →
        (ensure_latest_language_server envNoUsableAssets
            "root/server/bin/wc-language-server-linux-x64" "root/server/bin/.release-version"
            "wc-language-server-linux-x64" false).result =
          .ok (pathJoin ((pathParent "root/server/bin/wc-language-server-linux-x64").getD
            "root/server/bin/wc-language-server-linux-x64") JS_ASSET_NAME, true)) ∧
      (envNoUsableAssets.fs.pathExists "root/server/bin/wc-language-server-linux-x64" = false →
        envNoUsableAssets.fs.pathExists
          (pathJoin ((pathParent "root/server/bin/wc-language-server-linux-x64").getD
            "root/server/bin/wc-language-server-linux-x64") JS_ASSET_NAME) = false →
        (ensure_latest_language_server envNoUsableAssets
            "root/server/bin/wc-language-server-linux-x64" "root/server/bin/.release-version"
            "wc-language-server-linux-x64" false).result =
          .error ("latest release " ++ releaseNoAssets.version
            ++ " is missing required assets "
            ++ "wc-language-server-linux-x64" ++ " or " ++ JS_ASSET_NAME
            ++ " and no cached server exists at "
            ++ "root/server/bin/wc-language-server-linux-x64"))) :=
  native_asset_preferred envNoUsableAssets
    "root/server/bin/wc-language-server-linux-x64" "root/server/bin/.release-version"
    "wc-language-server-linux-x64" false releaseNoAssets rfl

/-- Claim C6: server_asset_for_platform is total with a non-empty asset
name for every (OS, arch) pair, and any OS outside windows, macos and
linux maps to the universal JS fallback with requires-node true. -/
theorem server_asset_for_platform_total (os arch : String) :
    (server_asset_for_platform os arch).1 ≠ "" ∧
    (os ≠ "windows" → os ≠ "macos" → os ≠ "linux" →
      server_asset_for_platform os arch = (JS_ASSET_NAME, true)) := by
  unfold server_asset_for_platform
  constructor
  · split_ifs <;> decide
  · intro h1 h2 h3
    simp [h1, h2, h3]

/-- Witness for C6: an unrecognized platform narrows to the JS
fallback. -/
theorem server_asset_for_platform_total_witness :
    (server_asset_for_platform "plan9" "mips").1 ≠ "" ∧
    server_asset_for_platform "plan9" "mips" = (JS_ASSET_NAME, true) :=
  ⟨(server_asset_for_platform_total "plan9" "mips").1,
   (server_asset_for_platform_total "plan9" "mips").2 (by decide) (by decide) (by decide)⟩

/-- Claim C7 (amended): with the operator override set, resolution
terminates at once with the override path verbatim — no feed query, no
version check, no download and no marker access — and the path is
returned without any existence validation. -/
theorem override_used_verbatim (env : Env) (root p : String)
    (h : env.customServerEnv = some p) :
    resolve_server_script env root =
      { result := .ok (p, is_node_script p), fs := env.fs, downloads := [] } := by
  unfold resolve_server_script
  rw [h]

/-- Witness for C7: a concrete override call. -/
theorem override_used_verbatim_witness :
    resolve_server_script envOverrideMissing "/ext" =
      { result := .ok ("/opt/absent/wc-server", is_node_script "/opt/absent/wc-server")
        fs := envOverrideMissing.fs, downloads := [] } :=
  override_used_verbatim envOverrideMissing "/ext" "/opt/absent/wc-server" rfl

/-- Counterexample for C7 as stated: the override path does not exist on
the filesystem, yet resolution still returns it successfully — no
existence validation is performed before it is returned. -/
theorem override_no_existence_validation :
    envOverrideMissing.fs.pathExists "/opt/absent/wc-server" = false ∧
    (resolve_server_script envOverrideMissing "/ext").result =
      .ok ("/opt/absent/wc-server", false) :=
  ⟨rfl, rfl⟩

/-- Claim C8 (amended): the initialization-options and workspace-settings
payloads are returned exactly as read from the host settings — the
workspace settings defaulting to JSON null when absent or unreadable —
with nothing injected into either payload. -/
theorem config_passthrough (io so : Option Json) :
    language_server_initialization_options (.ok ⟨io, so⟩) = .ok io ∧
    language_server_workspace_configuration (.ok ⟨io, so⟩) = .ok (some (so.getD Json.null)) ∧
    language_server_initialization_options (.error ()) = .ok none ∧
    language_server_workspace_configuration (.error ()) = .ok (some Json.null) :=
  ⟨rfl, rfl, rfl, rfl⟩

/-- Counterexample for C8 as stated: a workspace-settings payload that
contains no toolchain path (the empty object) is returned byte-for-byte
unchanged, so no resolved toolchain path is injected when absent. -/
theorem config_no_injection :
    language_server_workspace_configuration (.ok ⟨none, some (Json.obj [])⟩) =
      .ok (some (Json.obj [])) ∧
    language_server_initialization_options (.ok ⟨some (Json.obj []), none⟩) =
      .ok (some (Json.obj [])) :=
  ⟨rfl, rfl⟩

/-- Claim C9 (amended): with the preferred binary absent — not merely
stale — but the universal JS bundle cached next to it and the marker's
trimmed contents equal to the feed's version tag, resolution returns the
JS bundle path with requires-node true and performs no download.  (A
stale-but-present binary with a matching marker is returned itself; see
the counterexample below.) -/
theorem cached_js_bundle_no_download (env : Env)
    (script version_marker preferred_asset : String) (preferred_requires_node : Bool)
    (r : Release) (s : String)
    (hrel : env.releaseResult = .ok r)
    (hscript : env.fs.pathExists script = false)
    (hjs : env.fs.pathExists (pathJoin ((pathParent script).getD script) JS_ASSET_NAME) = true)
    (hread : env.fs.read version_marker = some s)
    (htrim : strTrim s = r.version) :
    ensure_latest_language_server env script version_marker preferred_asset
        preferred_requires_node =
      { result := .ok (pathJoin ((pathParent script).getD script) JS_ASSET_NAME, true)
        fs := env.fs, downloads := [] } := by
  unfold ensure_latest_language_server
  rw [hrel]
  simp [hread, hscript, hjs, htrim]

/-- Witness for C9: a concrete run where only the JS bundle is cached
and current. -/
theorem cached_js_bundle_no_download_witness :
    ensure_latest_language_server envCachedJsBundle
        "root/server/bin/wc-language-server-linux-x64" "root/server/bin/.release-version"
        "wc-language-server-linux-x64" false =
      { result := .ok (pathJoin
          ((pathParent "root/server/bin/wc-language-server-linux-x64").getD
            "root/server/bin/wc-language-server-linux-x64") JS_ASSET_NAME, true)
        fs := envCachedJsBundle.fs, downloads := [] } :=
  cached_js_bundle_no_download envCachedJsBundle
    "root/server/bin/wc-language-server-linux-x64" "root/server/bin/.release-version"
    "wc-language-server-linux-x64" false
    ⟨"2.3.0", [⟨"wc-language-server-linux-x64", "https://dl/native"⟩]⟩ "2.3.0"
    rfl rfl rfl rfl rfl

/-- Counterexample for C9 as stated: its stale sub-case fails.  With a
stale native binary still present at the expected path, the JS bundle
cached next to it, and the marker matching the feed version (the state a
JS-bundle install leaves behind), resolution returns the stale native
binary — not the JS bundle path the claim requires. -/
theorem stale_binary_shadows_js_bundle :
    (ensure_latest_language_server envStaleBinaryCachedJs
        "root/server/bin/wc-language-server-linux-x64" "root/server/bin/.release-version"
        "wc-language-server-linux-x64" false).result =
      .ok ("root/server/bin/wc-language-server-linux-x64", false) ∧
    (ensure_latest_language_server envStaleBinaryCachedJs
        "root/server/bin/wc-language-server-linux-x64" "root/server/bin/.release-version"
        "wc-language-server-linux-x64" false).result ≠
      .ok ("root/server/bin/wc-language-server.js", true) :=
  ⟨rfl, by decide⟩

/-- Claim C10: with the operator override set, the returned
requires-node flag is true exactly when the override path's file
extension is js, cjs or mjs; any other extension or none yields direct
execution. -/
theorem override_mode_iff_node_extension (env : Env) (root p : String)
    (h : env.customServerEnv = some p) :
    (resolve_server_script env root).result = .ok (p, is_node_script p) ∧
    (is_node_script p = true ↔
      (pathExtension p = some "js" ∨ pathExtension p = some "cjs" ∨
        pathExtension p = some "mjs")) := by
  constructor
  · unfold resolve_server_script
    rw [h]
  · unfold is_node_script
    cases hx : pathExtension p with
    | none => simp
    | some e =>
      simp [hx, or_assoc]

/-- Witness for C10: a concrete override with a cjs extension. -/
theorem override_mode_iff_node_extension_witness :
    (resolve_server_script envOverrideNodeScript "/ext").result =
      .ok ("tools/wc-server.cjs", is_node_script "tools/wc-server.cjs") ∧
    (is_node_script "tools/wc-server.cjs" = true ↔
      (pathExtension "tools/wc-server.cjs" = some "js" ∨
        pathExtension "tools/wc-server.cjs" = some "cjs" ∨
        pathExtension "tools/wc-server.cjs" = some "mjs")) :=
  override_mode_iff_node_extension envOverrideNodeScript "/ext" "tools/wc-server.cjs" rfl

end WcZed
